import Mathlib

set_option linter.unusedVariables false

/-!
Verification development for the sendit Discord wallet-verification bot.

The definitions below are a shallow embedding of the Python source:

* `escape_sql_value`          from src/utils/database.py (lines 10-25)
* `get_verification_token`    from src/utils/database.py (lines 335-340)
* `check_rate_limit`          from src/cogs/wallet_verification.py (lines 184-201)
* `verify_wallet_signature`   from src/cogs/wallet_verification.py (lines 446-476)
* `complete_verification`     from src/cogs/wallet_verification.py (lines 478-523)
* `handle_verification_page`  from src/cogs/wallet_verification.py (lines 95-109)
* `handle_verification_submit` from src/cogs/wallet_verification.py (lines 111-182)
* `generate_jwt_token` / `store_verification_token` from the same cog (lines 414-440)
* `verify_wallet_cmd`         from the cog command `verify_wallet` (lines 566-671)
  and the button handler `VerificationView.verify_wallet_button` (lines 756-863),
  whose issuance logic is identical
* `handle_wallet_verification` from src/main.py (lines 93-112)

Time is modelled as `Int` seconds; ten minutes is 600, the rate-limit window 60.
Database rows are lists of records; each database call either succeeds or, where
the source awaits an operation that can raise, a `Faults` flag makes it raise.
Functions of the shared database module that are absent from the repository
snapshot (`db.get_user_by_wallet`, `db.link_wallet`,
`db.complete_verification_token`, `db.get_pending_verification`, `db.get_user`,
`db.log_analytics_event`) are modelled from the spec; each such definition says
so in its doc comment.
-/

/-! ## SQL value escaping (src/utils/database.py lines 10-25) -/

/-- The single-quote character used by SQL string literals. -/
def sqlQuote : Char := '\''

/-- A Python scalar value as accepted by `escape_sql_value`.  A float is
abstracted by the character sequence Python's `str` prints for it (which never
contains a single quote); ints are carried exactly. -/
inductive PyScalar where
  | pynone
  | pybool (b : Bool)
  | pyint (n : Int)
  | pyfloat (printed : List Char)
  | pystr (s : List Char)
deriving DecidableEq

/-- `value.replace("'", "''")`: double every embedded single quote. -/
def escChars : List Char → List Char
  | [] => []
  | c :: t => if c = sqlQuote then c :: c :: escChars t else c :: escChars t

/-- `str(value)` for a Python int. -/
def intChars (n : Int) : List Char := (toString n).data

/-- Embedding of `escape_sql_value` (src/utils/database.py lines 10-25):
`None` becomes `NULL`, booleans become `TRUE`/`FALSE`, ints and floats are
printed bare, and strings are single-quoted with embedded quotes doubled. -/
def escape_sql_value : PyScalar → List Char
  | .pynone => ['N', 'U', 'L', 'L']
  | .pybool true => ['T', 'R', 'U', 'E']
  | .pybool false => ['F', 'A', 'L', 'S', 'E']
  | .pyint n => intChars n
  | .pyfloat printed => printed
  | .pystr s => sqlQuote :: (escChars s ++ [sqlQuote])

/-- Scanner for the body of a SQL single-quoted literal, already past the
opening quote.  A doubled quote contributes one quote to the decoded content;
a lone quote terminates the literal; running out of input is a parse error.
Returns the decoded content together with the unconsumed remainder. -/
def scanLit : List Char → Option (List Char × List Char)
  | [] => none
  | c :: t =>
    if c = sqlQuote then
      match t with
      | [] => some ([], [])
      | d :: t2 =>
        if d = sqlQuote then
          match scanLit t2 with
          | some (s, r) => some (sqlQuote :: s, r)
          | none => none
        else some ([], d :: t2)
    else
      match scanLit t with
      | some (s, r) => some (c :: s, r)
      | none => none

/-- Parse a SQL single-quoted string literal: an opening quote, then the
escaped body up to the terminating lone quote. -/
def parseSqlLit : List Char → Option (List Char × List Char)
  | [] => none
  | c :: t => if c = sqlQuote then scanLit t else none

/-! ## Per-IP rate limiter (src/cogs/wallet_verification.py lines 184-201) -/

/-- Embedding of `check_rate_limit`.  The state is the list of recorded request
times for one IP.  Entries older than sixty seconds are trimmed (`timestamp >
minute_ago` keeps an entry); if ten or more remain the request is rejected and
nothing is recorded; otherwise the current time is appended and the request
passes. -/
def check_rate_limit (timestamps : List Int) (now : Int) : Bool × List Int :=
  let kept := timestamps.filter (fun t => now - 60 < t)
  if 10 ≤ kept.length then (false, kept)
  else (true, kept ++ [now])

/-- Run a sequence of requests (given by their times) through
`check_rate_limit`, threading the per-IP state; returns the gate verdicts in
order together with the final state. -/
def run_rate_limiter : List Int → List Int → List Bool × List Int
  | ts, [] => ([], ts)
  | ts, r :: rest =>
    let p := check_rate_limit ts r
    let q := run_rate_limiter p.2 rest
    (p.1 :: q.1, q.2)

/-! ## Data model -/

/-- Status column of a stored verification token. -/
inductive TokenStatus where
  | pending
  | completed
  | expired
deriving DecidableEq

/-- A row of the verification-token table.  `expires_at` is the stored expiry
column; `jwt_exp` is the `exp` claim embedded in the JWT string itself and
`jwt_valid` whether that string verifies under the configured secret (the
lookup key `token` is the opaque JWT text). -/
structure TokenRec where
  token : String
  discord_id : String
  discord_user_id : String
  tokStatus : TokenStatus
  created_at : Int
  expires_at : Int
  jwt_exp : Int
  jwt_valid : Bool
  wallet_address : Option String := none
  ip_address : Option String := none
deriving DecidableEq

/-- A row of the user table (the subset the verification flow touches). -/
structure UserRec where
  discord_id : String
  wallet_address : Option String := none
  wallet_verified : Bool := false
deriving DecidableEq

/-- Observable side effects of completion: which users were granted the
verified role, which users received the success DM, and the analytics
completion events (by discord id), in order of occurrence. -/
structure Effects where
  role_grants : List String := []
  dms : List String := []
  analytics : List String := []
deriving DecidableEq

/-- The persistent state the flow reads and writes. -/
structure DbState where
  users : List UserRec
  tokens : List TokenRec
  effects : Effects := {}
deriving DecidableEq

/-- Which awaited operations raise during a run.  The source wraps
`complete_verification` and the submit handler in try/except, so a raise is
observed as the except branch, never as a crash. -/
structure Faults where
  get_token_raises : Bool := false
  complete_token_raises : Bool := false
  link_raises : Bool := false
  link_fails : Bool := false
  role_fails : Bool := false
  dm_fails : Bool := false
  analytics_raises : Bool := false
deriving DecidableEq

/-- The run with no storage or Discord failures. -/
def noFaults : Faults := {}

/-! ## Database helpers -/

/-- Embedding of `get_verification_token` (src/utils/database.py lines
335-340): `SELECT * FROM verifications WHERE token = ...` — lookup by token
string only, with no status and no expiry filter. -/
def get_verification_token (tokens : List TokenRec) (tok : String) : Option TokenRec :=
  tokens.find? (fun t => t.token = tok)

/-- Modelled from the spec: `db.get_user_by_wallet` of the shared database
module (absent from the snapshot); "Look up any existing account already
linked to walletAddress" (spec, completion step 1). -/
def get_user_by_wallet (users : List UserRec) (wallet : String) : Option UserRec :=
  users.find? (fun u => u.wallet_address = some wallet)

/-- Modelled from the spec: `db.link_wallet` of the shared database module
(absent from the snapshot); "Link walletAddress to the requesting account,
setting walletVerified = true" (spec, completion step 4).  The update applies
to the row keyed by the account id. -/
def link_wallet (users : List UserRec) (uid : String) (wallet : String) : List UserRec :=
  users.map (fun u =>
    if u.discord_id = uid then
      { u with wallet_address := some wallet, wallet_verified := true }
    else u)

/-- Modelled from the spec: `db.complete_verification_token` of the shared
database module (absent from the snapshot); "Mark the token row Completed,
recording walletAddress and sourceIp for audit" (spec, completion step 3). -/
def complete_verification_token (tokens : List TokenRec) (tok : String)
    (wallet : String) (ip : String) : List TokenRec :=
  tokens.map (fun t =>
    if t.token = tok then
      { t with tokStatus := .completed, wallet_address := some wallet,
               ip_address := some ip }
    else t)

/-- Modelled from the spec: `db.get_user` of the shared database module
(absent from the snapshot); fetches the user row for an account id. -/
def get_user (users : List UserRec) (uid : String) : Option UserRec :=
  users.find? (fun u => u.discord_id = uid)

/-- Modelled from the spec: `db.get_pending_verification` of the shared
database module (absent from the snapshot); "check for an existing Pending
token for the same account" (spec 4.1).  The expiry half of the reuse policy
is checked by the caller through the token's own JWT `exp` claim. -/
def get_pending_verification (tokens : List TokenRec) (uid : String) : Option TokenRec :=
  tokens.find? (fun t => t.discord_id = uid ∧ t.tokStatus = .pending)

/-! ## Token issuance (src/cogs/wallet_verification.py lines 414-440) -/

/-- The decoded JWT payload built by `generate_jwt_token`. -/
structure JwtPayload where
  discord_id : String
  discord_user_id : String
  exp : Int
  iat : Int
  token_uuid : String
deriving DecidableEq

/-- Embedding of `generate_jwt_token` (cog lines 414-424): the payload's `exp`
is `datetime.utcnow() + timedelta(minutes=10)` read at generation time
`genNow`. -/
def generate_jwt_token (genNow : Int) (discord_id discord_user_id uuid : String) :
    JwtPayload :=
  { discord_id := discord_id, discord_user_id := discord_user_id,
    exp := genNow + 600, iat := genNow, token_uuid := uuid }

/-- Embedding of `store_verification_token` (cog lines 436-440) together with
the row it creates: the stored `expires_at` is
`datetime.utcnow() + timedelta(minutes=10)` read at storage time `storeNow`,
a second clock read independent of the one inside `generate_jwt_token`. -/
def store_verification_token (storeNow : Int) (tok : String) (payload : JwtPayload) :
    TokenRec :=
  { token := tok, discord_id := payload.discord_id,
    discord_user_id := payload.discord_user_id, tokStatus := .pending,
    created_at := storeNow, expires_at := storeNow + 600,
    jwt_exp := payload.exp, jwt_valid := true }

/-- Embedding of `verify_jwt_token` (cog lines 426-434) applied to a stored
row's token string: decoding succeeds exactly when the string verifies under
the secret and its own `exp` claim lies strictly in the future
(`jwt.decode` raises `ExpiredSignatureError` once `exp ≤ now`). -/
def verify_jwt_token (now : Int) (t : TokenRec) : Bool :=
  t.jwt_valid && decide (now < t.jwt_exp)

/-! ## Signature validation (src/cogs/wallet_verification.py lines 446-476) -/

/-- Modelled from the spec: `is_valid_solana_address` of the shared utils
module (absent from the snapshot); "must satisfy the target chain's base58 /
length constraints" — base58 alphabet, length 32 to 44. -/
def is_base58_char (c : Char) : Bool :=
  ("123456789ABCDEFGHJKLMNPQRSTUVWXYZabcdefghijkmnopqrstuvwxyz".data).contains c

/-- Modelled from the spec: Solana address format validation (see
`is_base58_char`). -/
def is_valid_solana_address (s : String) : Bool :=
  32 ≤ s.length && s.length ≤ 44 && s.data.all is_base58_char

/-- Embedding of `verify_wallet_signature` (cog lines 446-476): accepts any
64-element signature list for a well-formed address; it never verifies the
signature cryptographically, and it ignores the token text entirely. -/
def verify_wallet_signature (wallet : String) (signature : List Int) (tok : String) :
    Bool :=
  if signature.length ≠ 64 then false
  else if !is_valid_solana_address wallet then false
  else true

/-! ## Completion handler (src/cogs/wallet_verification.py lines 478-523) -/

/-- The conflict pre-check of `complete_verification` (cog lines 486-489):
true when some account other than the token's requester already holds the
wallet. -/
def wallet_conflict (users : List UserRec) (td : TokenRec) (wallet : String) : Bool :=
  match get_user_by_wallet users wallet with
  | some u => u.discord_id ≠ td.discord_id
  | none => false

/-- Record a role grant unless the Discord call failed (the source catches the
failure inside `assign_verified_role`, so it never propagates). -/
def assign_verified_role (fail : Bool) (uid : String) (e : Effects) : Effects :=
  if fail then e else { e with role_grants := e.role_grants ++ [uid] }

/-- Record the success DM unless delivery failed (the source catches the
failure inside `send_verification_success_dm`, so it never propagates). -/
def send_verification_success_dm (fail : Bool) (uid : String) (e : Effects) : Effects :=
  if fail then e else { e with dms := e.dms ++ [uid] }

/-- Modelled from the spec: `db.log_analytics_event` of the shared database
module (absent from the snapshot); appends the wallet-verification-completed
event.  The source awaits it with no local try/except, inside
`complete_verification`'s outer try. -/
def log_analytics_event (did : String) (e : Effects) : Effects :=
  { e with analytics := e.analytics ++ [did] }

/-- The write phase of `complete_verification` (cog lines 491-519), entered
after the conflict pre-check: mark the token row completed (its awaited result
is not checked by the source), link the wallet, then on link success run the
role grant, the DM, and the analytics event.  A raise from an awaited database
call lands in the function's except branch, which returns failure and keeps
every mutation already made. -/
def completion_writes (f : Faults) (st : DbState) (td : TokenRec)
    (wallet ip : String) : Bool × DbState :=
  if f.complete_token_raises then (false, st)
  else
    let st1 := { st with tokens := complete_verification_token st.tokens td.token wallet ip }
    if f.link_raises then (false, st1)
    else
      let canLink := st1.users.any (fun u => u.discord_id = td.discord_id) && !f.link_fails
      if canLink then
        let st2 := { st1 with users := link_wallet st1.users td.discord_id wallet }
        let e1 := assign_verified_role f.role_fails td.discord_user_id st2.effects
        let e2 := send_verification_success_dm f.dm_fails td.discord_user_id e1
        if f.analytics_raises then (false, { st2 with effects := e2 })
        else (true, { st2 with effects := log_analytics_event td.discord_id e2 })
      else (false, st1)

/-- Embedding of `complete_verification` (cog lines 478-523): the conflict
pre-check followed by the write phase.  Returns the boolean the HTTP handler
receives together with the state after the run. -/
def complete_verification (f : Faults) (st : DbState) (td : TokenRec)
    (wallet ip : String) : Bool × DbState :=
  if wallet_conflict st.users td wallet then (false, st)
  else completion_writes f st td wallet ip

/-- The wallet-uniqueness invariant: at most one account holds any given
non-null wallet address. -/
def WalletUnique (users : List UserRec) : Prop :=
  ∀ u1 ∈ users, ∀ u2 ∈ users, ∀ w : String,
    u1.wallet_address = some w → u2.wallet_address = some w →
      u1.discord_id = u2.discord_id

/-! ## HTTP handlers (src/cogs/wallet_verification.py lines 95-182) -/

/-- Result of `GET /verify/{token}`: the generic error page, or the signing
page parameterised by the token text it asks the wallet to sign. -/
inductive PageResult where
  | errorPage
  | verifyPage (tok : String)
deriving DecidableEq

/-- Embedding of `handle_verification_page` (cog lines 95-109).  The request
arrives at wall-clock time `now`; the handler looks the token up by string and
renders the error page exactly when the lookup finds nothing — it never
consults the clock. -/
def handle_verification_page (now : Int) (st : DbState) (tok : String) : PageResult :=
  match get_verification_token st.tokens tok with
  | none => .errorPage
  | some td => .verifyPage td.token

/-- Error discriminant of a submit response. -/
inductive SubmitError where
  | rateLimited
  | missingData
  | invalidWallet
  | invalidToken
  | invalidSignature
  | internalError
deriving DecidableEq

/-- The structured JSON envelope every submit response carries. -/
structure Response where
  statusCode : Nat
  success : Bool
  error : Option SubmitError := none
deriving DecidableEq

/-- The parsed JSON body of a `POST /api/verify` request: `data.get` of the
three expected fields.  A field can be absent (`none`), and a present string
or list can still be Python-falsy (empty), which the source's
`all([token, wallet_address, signature])` treats as missing. -/
structure ReqBody where
  token : Option String := none
  walletAddress : Option String := none
  signature : Option (List Int) := none
deriving DecidableEq

/-- Python truthiness of an optional string field. -/
def truthyStr : Option String → Bool
  | none => false
  | some s => !s.isEmpty

/-- Python truthiness of an optional list field. -/
def truthyList : Option (List Int) → Bool
  | none => false
  | some l => !l.isEmpty

/-- The body of `handle_verification_submit`'s try block (cog lines 122-175).
`body = none` models `request.json()` raising; a `Faults` flag models the
token lookup raising.  `Except.error` is an escaped exception, caught by the
handler's except branch. -/
def submit_inner (f : Faults) (st : DbState) (ip : String) (body : Option ReqBody) :
    Except Unit (Response × DbState) :=
  match body with
  | none => .error ()
  | some b =>
    if !(truthyStr b.token && truthyStr b.walletAddress && truthyList b.signature) then
      .ok ({ statusCode := 400, success := false, error := some .missingData }, st)
    else
      let tok := b.token.getD ""
      let wallet := b.walletAddress.getD ""
      let sig := b.signature.getD []
      if !is_valid_solana_address wallet then
        .ok ({ statusCode := 400, success := false, error := some .invalidWallet }, st)
      else if f.get_token_raises then .error ()
      else
        match get_verification_token st.tokens tok with
        | none =>
          .ok ({ statusCode := 400, success := false, error := some .invalidToken }, st)
        | some td =>
          if !verify_wallet_signature wallet sig td.token then
            .ok ({ statusCode := 400, success := false, error := some .invalidSignature }, st)
          else
            let r := complete_verification f st td wallet ip
            if r.1 then
              .ok ({ statusCode := 200, success := true }, r.2)
            else
              .ok ({ statusCode := 500, success := false, error := some .internalError }, r.2)

/-- Embedding of `handle_verification_submit` (cog lines 111-182): the
rate-limit gate runs first and returns 429 without entering the pipeline; the
pipeline runs inside try/except, and any escaped exception is mapped to the
generic 500 response.  Returns the response, the database state after the
request, and the IP's rate-limit state after the request. -/
def handle_verification_submit (f : Faults) (st : DbState) (rl : List Int)
    (now : Int) (ip : String) (body : Option ReqBody) :
    Response × DbState × List Int :=
  let gate := check_rate_limit rl now
  if !gate.1 then
    ({ statusCode := 429, success := false, error := some .rateLimited }, st, gate.2)
  else
    match submit_inner f st ip body with
    | .ok (r, st2) => (r, st2, gate.2)
    | .error _ =>
      ({ statusCode := 500, success := false, error := some .internalError }, st, gate.2)

/-! ## Discord issuance entry point (cog lines 566-671 and 756-863) -/

/-- Outcome of the start-verification entry point, as the user observes it. -/
inductive IssueOutcome where
  | alreadyVerified
  | reused (tok : String)
  | fresh (tok : String)
  | storeFailed
deriving DecidableEq

/-- The fresh-issuance tail of the entry point (cog lines 607-653): generate a
new JWT, store it, and report the internal error when storage fails. -/
def verify_wallet_fresh (st : DbState) (now : Int) (uid freshTok uuid : String)
    (storeOk : Bool) : IssueOutcome × DbState :=
  if storeOk then
    let row := store_verification_token now freshTok (generate_jwt_token now uid uid uuid)
    (.fresh freshTok, { st with tokens := st.tokens ++ [row] })
  else (.storeFailed, st)

/-- Embedding of the issuance logic shared by the `solana-verify` command
(cog lines 566-671) and the verification button (lines 756-863): an
already-verified account is answered immediately; otherwise a stored Pending
token whose own JWT still decodes (unexpired) is reused verbatim; otherwise a
fresh token is generated and stored.  One invocation is modelled at one
clock reading `now`. -/
def verify_wallet_cmd (st : DbState) (now : Int) (uid freshTok uuid : String)
    (storeOk : Bool) : IssueOutcome × DbState :=
  let issue :=
    match get_pending_verification st.tokens uid with
    | some pt =>
      if verify_jwt_token now pt then (.reused pt.token, st)
      else verify_wallet_fresh st now uid freshTok uuid storeOk
    | none => verify_wallet_fresh st now uid freshTok uuid storeOk
  match get_user st.users uid with
  | some u => if u.wallet_verified then (.alreadyVerified, st) else issue
  | none => issue

/-! ## The /api/confirm endpoint (src/main.py lines 93-112) -/

/-- A dynamically typed Python value passed to the cog method. -/
inductive PyObj where
  | dict
  | str (s : String)
  | list (l : List Int)
deriving DecidableEq

/-- Response of the `/api/confirm` endpoint. -/
structure ConfirmResponse where
  statusCode : Nat
  ok : Bool
deriving DecidableEq

/-- Python's call protocol applied to the bound method
`verify_wallet_signature(self, wallet_address, signature, token)`: a call
whose argument list does not supply exactly the three required positional
parameters raises `TypeError` before the method body runs (`none` here);
a three-argument call enters the body, whose own try/except makes it total. -/
def call_verify_wallet_signature : List PyObj → Option Bool
  | [a, b, c] =>
    some (match a, b, c with
          | .str w, .list s, .str t => verify_wallet_signature w s t
          | _, _, _ => false)
  | _ => none

/-- Embedding of `handle_wallet_verification` (src/main.py lines 93-112):
parse the body (`none` models `request.json()` raising), and when the cog is
loaded call `cog.verify_wallet_signature(data)` with the single dictionary
argument.  Any exception — including the `TypeError` from the arity mismatch —
is caught and answered with 400; a missing cog is answered with 500. -/
def handle_wallet_verification (cogLoaded : Bool) (body : Option PyObj) :
    ConfirmResponse :=
  match body with
  | none => { statusCode := 400, ok := false }
  | some data =>
    if cogLoaded then
      match call_verify_wallet_signature [data] with
      | some r => { statusCode := 200, ok := r }
      | none => { statusCode := 400, ok := false }
    else { statusCode := 500, ok := false }

/-! ## Concrete states used by counterexamples and witnesses -/

/-- Account `A` with no wallet. -/
def userA : UserRec := { discord_id := "A" }

/-- Account `B` with no wallet. -/
def userB : UserRec := { discord_id := "B" }

/-- A pending token issued at time 0 to account `A`. -/
def tdA : TokenRec :=
  { token := "tokA", discord_id := "A", discord_user_id := "A",
    tokStatus := .pending, created_at := 0, expires_at := 600,
    jwt_exp := 600, jwt_valid := true }

/-- A pending token issued at time 0 to account `B`. -/
def tdB : TokenRec :=
  { token := "tokB", discord_id := "B", discord_user_id := "B",
    tokStatus := .pending, created_at := 0, expires_at := 600,
    jwt_exp := 600, jwt_valid := true }

/-- Two unlinked accounts, each holding a pending token. -/
def stRace : DbState := { users := [userA, userB], tokens := [tdA, tdB] }

/-- A run in which only the analytics append raises; every storage write and
Discord call succeeds. -/
def fAnalytics : Faults := { analytics_raises := true }

/-- One unlinked account `A` with its pending token. -/
def stOneUser : DbState := { users := [userA], tokens := [tdA] }

/-- Wallet `W` already held, verified, by account `B`: completing `tdA`
(requested by `A`) for `W` hits the conflict pre-check. -/
def stConf : DbState :=
  { users := [{ discord_id := "B", wallet_address := some "W", wallet_verified := true }],
    tokens := [tdA] }

/-- An already-Completed token of account `A` for wallet `W`. -/
def tdDone : TokenRec :=
  { token := "tokT", discord_id := "A", discord_user_id := "A",
    tokStatus := .completed, created_at := 0, expires_at := 600,
    jwt_exp := 600, jwt_valid := true, wallet_address := some "W",
    ip_address := some "ip" }

/-- The state after `tdDone` was completed once: `A` linked and verified, and
each side effect already fired exactly once. -/
def stDone : DbState :=
  { users := [{ discord_id := "A", wallet_address := some "W", wallet_verified := true }],
    tokens := [tdDone],
    effects := { role_grants := ["A"], dms := ["A"], analytics := ["A"] } }

/-- A stored token that expired at time 600 (issued at 0). -/
def tdE : TokenRec :=
  { token := "tokE", discord_id := "A", discord_user_id := "A",
    tokStatus := .pending, created_at := 0, expires_at := 600,
    jwt_exp := 600, jwt_valid := true }

/-- State holding only the expirable token `tdE`. -/
def stExp : DbState := { users := [userA], tokens := [tdE] }

/-- A Pending, unexpired (before time 600) token of account `A`. -/
def pendA : TokenRec :=
  { token := "tokP", discord_id := "A", discord_user_id := "A",
    tokStatus := .pending, created_at := 0, expires_at := 600,
    jwt_exp := 600, jwt_valid := true }

/-- Account `A` already wallet-verified while its Pending unexpired token
`pendA` is still stored. -/
def stVerifiedPending : DbState :=
  { users := [{ discord_id := "A", wallet_address := some "W", wallet_verified := true }],
    tokens := [pendA] }

/-- Account `A` not yet verified, with the Pending unexpired token `pendA`. -/
def stUnverifiedPending : DbState := { users := [userA], tokens := [pendA] }

/-! ## Theorems -/

/-- Scanning the escaped body followed by the closing quote recovers the
original characters exactly and consumes the whole input. -/
theorem scanLit_escChars (s : List Char) :
    scanLit (escChars s ++ [sqlQuote]) = some (s, []) := by
  induction s with
  | nil => simp [escChars, scanLit]
  | cons c t ih =>
    by_cases hc : c = sqlQuote
    · subst hc
      simp [escChars, scanLit, ih]
    · simp only [escChars, if_neg hc, List.cons_append]
      rw [scanLit.eq_def]
      simp only [if_neg hc]
      have hne : escChars t ++ [sqlQuote] ≠ [] := by simp
      cases h : escChars t ++ [sqlQuote] with
      | nil => exact absurd h hne
      | cons d t2 =>
        rw [h] at ih
        simp [ih]

/-- Claim C9 (confirmed): `escape_sql_value` is total over None, bool, int,
float and str by construction, and for every string `s` the produced literal
is the single-quoted form with embedded quotes doubled: parsing it as a SQL
single-quoted literal decodes exactly `s` and consumes the entire output, so
no string input can terminate the literal early. -/
theorem claim9_escape_roundtrip (s : List Char) :
    escape_sql_value (.pystr s) = sqlQuote :: (escChars s ++ [sqlQuote]) ∧
    parseSqlLit (escape_sql_value (.pystr s)) = some (s, []) := by
  refine ⟨rfl, ?_⟩
  simp [parseSqlLit, escape_sql_value, scanLit_escChars s]

/-- A request passes the gate whenever fewer than ten entries survive the
window trim. -/
theorem check_pass_of_filter_lt (ts : List Int) (now : Int)
    (h : (ts.filter (fun t => now - 60 < t)).length < 10) :
    (check_rate_limit ts now).1 = true := by
  simp only [check_rate_limit]
  rw [if_neg (by omega)]

/-- A request passes the gate whenever at most nine entries are recorded. -/
theorem check_pass_of_len_le (ts : List Int) (now : Int) (h : ts.length ≤ 9) :
    (check_rate_limit ts now).1 = true := by
  apply check_pass_of_filter_lt
  have := List.length_filter_le (fun t => now - 60 < t) ts
  omega

/-- One gate call grows the recorded history by at most one entry. -/
theorem check_len_le (ts : List Int) (now : Int) :
    (check_rate_limit ts now).2.length ≤ ts.length + 1 := by
  have hf := List.length_filter_le (fun t => now - 60 < t) ts
  simp only [check_rate_limit]
  split
  · dsimp only
    omega
  · dsimp only
    rw [List.length_append]
    simp only [List.length_cons, List.length_nil]
    omega

/-- From a history of length `n`, every request in a run of at most `10 - n`
requests passes the gate. -/
theorem run_rate_limiter_all_pass :
    ∀ (reqs ts : List Int), ts.length + reqs.length ≤ 10 →
      ∀ b ∈ (run_rate_limiter ts reqs).1, b = true := by
  intro reqs
  induction reqs with
  | nil =>
    intro ts h b hb
    simp [run_rate_limiter] at hb
  | cons r rest ih =>
    intro ts h b hb
    simp only [run_rate_limiter] at hb
    rcases List.mem_cons.mp hb with h1 | h2
    · subst h1
      exact check_pass_of_len_le ts r (by simp only [List.length_cons] at h; omega)
    · refine ih (check_rate_limit ts r).2 ?_ b h2
      have := check_len_le ts r
      simp only [List.length_cons] at h
      omega

/-- Claim C5 (confirmed): the per-IP rate limiter passes any ten requests
recorded within the rolling window (in particular the first ten requests of a
fresh IP), rejects the eleventh request arriving while ten recorded timestamps
are still inside the sixty-second window, records nothing for a rejected
request, and frees one slot as soon as the oldest recorded request slides out
of the window. -/
theorem claim5_rate_limiter :
    (∀ reqs : List Int, reqs.length ≤ 10 →
        ∀ b ∈ (run_rate_limiter [] reqs).1, b = true) ∧
    (∀ (ts : List Int) (now : Int), ts.length = 10 →
        (∀ t ∈ ts, now - 60 < t) → (check_rate_limit ts now).1 = false) ∧
    (∀ (ts : List Int) (now : Int), (check_rate_limit ts now).1 = false →
        (check_rate_limit ts now).2 = ts.filter (fun t => now - 60 < t)) ∧
    (∀ (ts : List Int) (now : Int), ts.length = 10 →
        (∃ t ∈ ts, t ≤ now - 60) → (check_rate_limit ts now).1 = true) := by
  refine ⟨?_, ?_, ?_, ?_⟩
  · intro reqs h
    exact run_rate_limiter_all_pass reqs [] (by simpa using h)
  · intro ts now hlen hin
    have hkeep : ts.filter (fun t => now - 60 < t) = ts := by
      apply List.filter_eq_self.mpr
      intro a ha
      exact decide_eq_true (hin a ha)
    simp [check_rate_limit, hkeep, hlen]
  · intro ts now h
    simp only [check_rate_limit] at h ⊢
    split at h
    · next hfull => rw [if_pos hfull]
    · simp at h
  · intro ts now hlen hout
    apply check_pass_of_filter_lt
    rcases hout with ⟨t0, ht0, hle⟩
    have : (ts.filter (fun t => now - 60 < t)).length < ts.length := by
      apply List.length_filter_lt_length_iff_exists.mpr
      exact ⟨t0, ht0, by simpa using hle⟩
    omega

/-- Witness for claim C5 at concrete inputs: ten requests at times 0..9 all
pass from a fresh history; an eleventh at time 59 is rejected and leaves the
ten recorded timestamps unchanged; at time 60, once the oldest timestamp 0 has
slid out of the window, the request passes again. -/
theorem claim5_witness :
    ((run_rate_limiter [] [0, 1, 2, 3, 4, 5, 6, 7, 8, 9]).1.all (fun b => b)) = true ∧
    (check_rate_limit [0, 1, 2, 3, 4, 5, 6, 7, 8, 9] 59).1 = false ∧
    (check_rate_limit [0, 1, 2, 3, 4, 5, 6, 7, 8, 9] 59).2 =
      [0, 1, 2, 3, 4, 5, 6, 7, 8, 9] ∧
    (check_rate_limit [0, 1, 2, 3, 4, 5, 6, 7, 8, 9] 60).1 = true := by
  refine ⟨?_, ?_, ?_, ?_⟩
  · apply List.all_eq_true.mpr
    intro b hb
    exact claim5_rate_limiter.1 [0, 1, 2, 3, 4, 5, 6, 7, 8, 9] (by decide) b hb
  · exact claim5_rate_limiter.2.1 _ _ (by decide) (by decide)
  · rw [claim5_rate_limiter.2.2.1 _ _
      (claim5_rate_limiter.2.1 _ _ (by decide) (by decide))]
    decide
  · exact claim5_rate_limiter.2.2.2 _ _ (by decide) (by decide)

/-- When the conflict pre-check is clear, every holder of the wallet already
is the requesting account (there is at most one holder by uniqueness, and
`get_user_by_wallet` found it, or found nothing). -/
theorem no_conflict_all_same (users : List UserRec) (td : TokenRec) (w : String)
    (hconf : wallet_conflict users td w = false) (hu : WalletUnique users) :
    ∀ u ∈ users, u.wallet_address = some w → u.discord_id = td.discord_id := by
  intro u humem hw
  unfold wallet_conflict at hconf
  cases hfind : get_user_by_wallet users w with
  | none =>
    have hall := List.find?_eq_none.mp hfind u humem
    simp [hw] at hall
  | some u0 =>
    rw [hfind] at hconf
    have h0 : u0.discord_id = td.discord_id := by
      by_contra hne
      simp [hne] at hconf
    have hmem0 : u0 ∈ users := List.mem_of_find?_eq_some hfind
    have hp0 : u0.wallet_address = some w := by
      have := List.find?_some hfind
      simpa using this
    exact (hu u humem u0 hmem0 w hw hp0).trans h0

/-- Linking the wallet to the requesting account keeps the uniqueness
invariant, provided the conflict pre-check was clear on the same table. -/
theorem link_preserves_unique (users : List UserRec) (td : TokenRec) (wallet : String)
    (hconf : wallet_conflict users td wallet = false) (hu : WalletUnique users) :
    WalletUnique (link_wallet users td.discord_id wallet) := by
  intro u1 h1 u2 h2 w hw1 hw2
  unfold link_wallet at h1 h2
  rcases List.mem_map.mp h1 with ⟨a1, ha1, rfl⟩
  rcases List.mem_map.mp h2 with ⟨a2, ha2, rfl⟩
  by_cases e1 : a1.discord_id = td.discord_id
  · by_cases e2 : a2.discord_id = td.discord_id
    · rw [if_pos e1, if_pos e2]
      exact e1.trans e2.symm
    · rw [if_pos e1] at hw1 ⊢
      rw [if_neg e2] at hw2 ⊢
      have hww : w = wallet := by
        have : some wallet = some w := hw1
        exact (Option.some.inj this).symm
      subst hww
      exact absurd (no_conflict_all_same users td w hconf hu a2 ha2 hw2) e2
  · by_cases e2 : a2.discord_id = td.discord_id
    · rw [if_neg e1] at hw1 ⊢
      rw [if_pos e2] at hw2 ⊢
      have hww : w = wallet := by
        have : some wallet = some w := hw2
        exact (Option.some.inj this).symm
      subst hww
      exact absurd (no_conflict_all_same users td w hconf hu a1 ha1 hw1) e1
    · rw [if_neg e1] at hw1 ⊢
      rw [if_neg e2] at hw2 ⊢
      exact hu a1 ha1 a2 ha2 w hw1 hw2

/-- Claim C1, amended (corrected): one atomic—that is, non-interleaved—run of
the completion operation preserves the invariant that at most one account
holds a given non-null wallet address.  The concurrent half of the original
claim is false: see the interleaving counterexample. -/
theorem claim1_uniqueness_preserved (f : Faults) (st : DbState) (td : TokenRec)
    (wallet ip : String) (hu : WalletUnique st.users) :
    WalletUnique (complete_verification f st td wallet ip).2.users := by
  unfold complete_verification completion_writes
  by_cases hc : wallet_conflict st.users td wallet = true
  · rw [if_pos hc]
    exact hu
  · have hcf : wallet_conflict st.users td wallet = false := by
      simpa using hc
    rw [if_neg hc]
    dsimp only
    split
    · exact hu
    · split
      · exact hu
      · split
        · split
          · exact link_preserves_unique st.users td wallet hcf hu
          · exact link_preserves_unique st.users td wallet hcf hu
        · exact hu

/-- Witness for the amended claim C1: the single-account state stays unique
through a full, successful completion run. -/
theorem claim1_witness :
    WalletUnique (complete_verification noFaults stOneUser tdA "W" "ip").2.users :=
  claim1_uniqueness_preserved noFaults stOneUser tdA "W" "ip" (by
    intro u1 h1 u2 h2 w hw1 hw2
    simp [stOneUser, userA] at h1 h2
    subst h1
    subst h2
    simp at hw1)

/-- Counterexample to claim C1 as stated: the conflict check and the writes of
`complete_verification` are separate awaited storage calls, so two concurrent
completions can interleave as check(A); check(B); writes(A); writes(B).  Both
checks read the same initial table and pass, both write phases succeed, and
the final user table holds wallet `W` under the two distinct accounts `A` and
`B` — the uniqueness invariant is broken and both attempts succeeded. -/
theorem claim1_race_counterexample :
    wallet_conflict stRace.users tdA "W" = false ∧
    wallet_conflict stRace.users tdB "W" = false ∧
    (completion_writes noFaults stRace tdA "W" "ip1").1 = true ∧
    (completion_writes noFaults
        (completion_writes noFaults stRace tdA "W" "ip1").2 tdB "W" "ip2").1 = true ∧
    ¬ WalletUnique (completion_writes noFaults
        (completion_writes noFaults stRace tdA "W" "ip1").2 tdB "W" "ip2").2.users := by
  refine ⟨by decide, by decide, by decide, by decide, ?_⟩
  intro h
  have := h { discord_id := "A", wallet_address := some "W", wallet_verified := true }
    (by decide)
    { discord_id := "B", wallet_address := some "W", wallet_verified := true }
    (by decide) "W" rfl rfl
  exact absurd this (by decide)

/-- Exact characterisation of `complete_verification`'s boolean result: it is
failure exactly when the conflict pre-check fires, a storage write raises or
does not apply, or the analytics append raises. -/
theorem complete_result_iff (f : Faults) (st : DbState) (td : TokenRec)
    (wallet ip : String) :
    (complete_verification f st td wallet ip).1 = false ↔
      (wallet_conflict st.users td wallet = true ∨
       f.complete_token_raises = true ∨ f.link_raises = true ∨
       st.users.any (fun u => u.discord_id = td.discord_id) = false ∨
       f.link_fails = true ∨ f.analytics_raises = true) := by
  unfold complete_verification completion_writes
  by_cases hc : wallet_conflict st.users td wallet = true
  · simp [hc]
  · by_cases h1 : f.complete_token_raises = true
    · simp [hc, h1]
    · by_cases h2 : f.link_raises = true
      · simp [hc, h1, h2]
      · by_cases ha : st.users.any (fun u => u.discord_id = td.discord_id) = true
        · by_cases hl : f.link_fails = true
          · simp [hc, h1, h2, ha, hl]
          · by_cases h4 : f.analytics_raises = true
            · simp [hc, h1, h2, ha, hl, h4]
            · simp [hc, h1, h2, ha, hl, h4]
        · simp [hc, h1, h2, ha]

/-- A fired conflict pre-check leaves the state untouched. -/
theorem complete_conflict_unchanged (f : Faults) (st : DbState) (td : TokenRec)
    (wallet ip : String) (h : wallet_conflict st.users td wallet = true) :
    (complete_verification f st td wallet ip).2 = st := by
  unfold complete_verification
  simp [h]

/-- The boolean result of `complete_verification` does not depend on whether
the role grant or the DM delivery fails (both are caught locally). -/
theorem complete_ignores_role_dm (f : Faults) (st : DbState) (td : TokenRec)
    (wallet ip : String) (rf df : Bool) :
    (complete_verification
        { f with role_fails := rf, dm_fails := df } st td wallet ip).1 =
      (complete_verification f st td wallet ip).1 := by
  unfold complete_verification completion_writes
  by_cases hc : wallet_conflict st.users td wallet = true
  · simp [hc]
  · by_cases h1 : f.complete_token_raises = true
    · simp [hc, h1]
    · by_cases h2 : f.link_raises = true
      · simp [hc, h1, h2]
      · by_cases ha : st.users.any (fun u => u.discord_id = td.discord_id) = true
        · by_cases hl : f.link_fails = true
          · simp [hc, h1, h2, ha, hl]
          · by_cases h4 : f.analytics_raises = true
            · simp [hc, h1, h2, ha, hl, h4]
            · simp [hc, h1, h2, ha, hl, h4]
        · simp [hc, h1, h2, ha]

/-- Claim C2, amended (corrected): completion returns failure exactly when the
wallet conflict fires, a storage write of steps 3/4 raises or does not apply,
or the analytics write of step 5 raises; on a conflict no state is mutated,
and the result never depends on role-grant or DM failures.  The original
claim is false because a failing analytics event — a step-5 side effect —
also flips the result to failure (see the counterexample). -/
theorem claim2_completion_result (f : Faults) (st : DbState) (td : TokenRec)
    (wallet ip : String) :
    ((complete_verification f st td wallet ip).1 = false ↔
      (wallet_conflict st.users td wallet = true ∨
       f.complete_token_raises = true ∨ f.link_raises = true ∨
       st.users.any (fun u => u.discord_id = td.discord_id) = false ∨
       f.link_fails = true ∨ f.analytics_raises = true)) ∧
    (wallet_conflict st.users td wallet = true →
      (complete_verification f st td wallet ip).2 = st) ∧
    (∀ rf df : Bool,
      (complete_verification
          { f with role_fails := rf, dm_fails := df } st td wallet ip).1 =
        (complete_verification f st td wallet ip).1) :=
  ⟨complete_result_iff f st td wallet ip,
   complete_conflict_unchanged f st td wallet ip,
   fun rf df => complete_ignores_role_dm f st td wallet ip rf df⟩

/-- Counterexample to claim C2 as stated: with no conflict and both storage
writes succeeding, a raise from the step-5 analytics event alone makes
`complete_verification` return failure — even though the wallet link was
applied and retained (the final user table shows account `A` linked and
verified).  The claim's "returns success regardless of step-5 outcomes" is
therefore false. -/
theorem claim2_counterexample :
    wallet_conflict stOneUser.users tdA "W" = false ∧
    fAnalytics.complete_token_raises = false ∧
    fAnalytics.link_raises = false ∧
    fAnalytics.link_fails = false ∧
    (complete_verification fAnalytics stOneUser tdA "W" "ip").1 = false ∧
    (complete_verification fAnalytics stOneUser tdA "W" "ip").2.users =
      [{ discord_id := "A", wallet_address := some "W", wallet_verified := true }] := by
  refine ⟨by decide, by decide, by decide, by decide, by decide, by decide⟩

/-- Witness for the amended claim C2: at the concrete conflicting state, the
theorem's no-mutation conclusion evaluates as stated. -/
theorem claim2_witness :
    (complete_verification noFaults stConf tdA "W" "ip").2 = stConf :=
  (claim2_completion_result noFaults stConf tdA "W" "ip").2.1 (by decide)

/-- Claim C3, amended (corrected): a second completion attempt against an
already-Completed token does not fail cleanly — neither the lookup
(`get_verification_token` has no status filter) nor `complete_verification`
(which never reads the status) rejects it; when the wallet is still linked to
the same account the attempt succeeds again and the role grant and analytics
event fire one more time.  It fails only through the wallet-conflict path. -/
theorem claim3_recompletion (f : Faults) (st : DbState) (td : TokenRec)
    (wallet ip : String) (hst : td.tokStatus = .completed)
    (hconf : wallet_conflict st.users td wallet = false)
    (hex : st.users.any (fun u => u.discord_id = td.discord_id) = true)
    (hf : f = noFaults) :
    (complete_verification f st td wallet ip).1 = true ∧
    (complete_verification f st td wallet ip).2.effects.analytics =
      st.effects.analytics ++ [td.discord_id] ∧
    (complete_verification f st td wallet ip).2.effects.role_grants =
      st.effects.role_grants ++ [td.discord_user_id] := by
  subst hf
  unfold complete_verification completion_writes
  simp [hconf, hex, noFaults, assign_verified_role, send_verification_success_dm,
        log_analytics_event]

/-- Counterexample to claim C3 as stated: `tdDone` is already Completed and
its side effects fired once (state `stDone`), yet the lookup still returns it
and a second completion run returns success and fires the analytics event and
role grant a second time. -/
theorem claim3_counterexample :
    tdDone.tokStatus = .completed ∧
    get_verification_token stDone.tokens "tokT" = some tdDone ∧
    (complete_verification noFaults stDone tdDone "W" "ip2").1 = true ∧
    (complete_verification noFaults stDone tdDone "W" "ip2").2.effects.analytics =
      ["A", "A"] ∧
    (complete_verification noFaults stDone tdDone "W" "ip2").2.effects.role_grants =
      ["A", "A"] := by
  refine ⟨by decide, by decide, by decide, by decide, by decide⟩

/-- Witness for the amended claim C3 at the concrete re-completion state. -/
theorem claim3_witness :
    (complete_verification noFaults stDone tdDone "W" "ip2").1 = true ∧
    (complete_verification noFaults stDone tdDone "W" "ip2").2.effects.analytics =
      stDone.effects.analytics ++ ["A"] ∧
    (complete_verification noFaults stDone tdDone "W" "ip2").2.effects.role_grants =
      stDone.effects.role_grants ++ ["A"] :=
  claim3_recompletion noFaults stDone tdDone "W" "ip2" (by decide) (by decide)
    (by decide) rfl

/-- Claim C4, amended (corrected): the token lookup used by the GET page (and
by the submit pipeline) ignores expiry entirely — `get_verification_token`
selects by token string only, so a stored token found at any time, even
strictly after `created_at + 600`, still renders the signing page; the
generic error page appears exactly when no row with that token exists. -/
theorem claim4_lookup_ignores_expiry (now : Int) (st : DbState) (tok : String)
    (td : TokenRec) (hfound : get_verification_token st.tokens tok = some td)
    (hexpired : td.expires_at < now) :
    handle_verification_page now st tok = .verifyPage td.token := by
  unfold handle_verification_page
  rw [hfound]

/-- Counterexample to claim C4 as stated: token `tokE` was created at 0 and
expired at 600, yet the GET page handler at time 601 — strictly after
`createdAt + 10min` — still renders the signing page, not the generic error
page the claim requires. -/
theorem claim4_counterexample :
    tdE.created_at = 0 ∧ tdE.expires_at = 600 ∧
    handle_verification_page 601 stExp "tokE" = .verifyPage "tokE" ∧
    handle_verification_page 601 stExp "tokE" ≠ .errorPage := by
  refine ⟨by decide, by decide, by decide, by decide⟩

/-- Witness for the amended claim C4: far past expiry the signing page still
renders for the stored token. -/
theorem claim4_witness :
    handle_verification_page 1000000 stExp "tokE" = .verifyPage "tokE" :=
  claim4_lookup_ignores_expiry 1000000 stExp "tokE" tdE (by decide) (by decide)

/-- For an account with no verified row, the entry point reduces to its
issuance logic (the already-verified early return does not fire). -/
theorem verify_wallet_cmd_unverified (st : DbState) (now : Int)
    (uid freshTok uuid : String) (storeOk : Bool)
    (hnv : ∀ u ∈ st.users, u.discord_id = uid → u.wallet_verified = false) :
    verify_wallet_cmd st now uid freshTok uuid storeOk =
      (match get_pending_verification st.tokens uid with
       | some pt =>
         if verify_jwt_token now pt then (.reused pt.token, st)
         else verify_wallet_fresh st now uid freshTok uuid storeOk
       | none => verify_wallet_fresh st now uid freshTok uuid storeOk) := by
  unfold verify_wallet_cmd
  cases hg : get_user st.users uid with
  | none => rfl
  | some u =>
    have hmem : u ∈ st.users := List.mem_of_find?_eq_some hg
    have hid : u.discord_id = uid := by
      have := List.find?_some hg
      simpa using this
    have hv : u.wallet_verified = false := hnv u hmem hid
    simp [hv]

/-- Claim C6, amended (corrected): for an account that is not already
wallet-verified, the entry point returns the stored Pending token verbatim
exactly when that token's JWT still decodes (unexpired), and otherwise mints
and stores a fresh token (reporting an internal error if storage fails).  The
original if-and-only-if is false for already-verified accounts, which receive
an already-verified reply instead of the pending token (see the
counterexample). -/
theorem claim6_reuse_policy (st : DbState) (now : Int) (uid freshTok uuid : String)
    (storeOk : Bool)
    (hnv : ∀ u ∈ st.users, u.discord_id = uid → u.wallet_verified = false) :
    (∀ pt : TokenRec, get_pending_verification st.tokens uid = some pt →
        verify_jwt_token now pt = true →
        verify_wallet_cmd st now uid freshTok uuid storeOk = (.reused pt.token, st)) ∧
    (∀ pt : TokenRec, get_pending_verification st.tokens uid = some pt →
        verify_jwt_token now pt = false → storeOk = true →
        (verify_wallet_cmd st now uid freshTok uuid storeOk).1 = .fresh freshTok) ∧
    (get_pending_verification st.tokens uid = none → storeOk = true →
        (verify_wallet_cmd st now uid freshTok uuid storeOk).1 = .fresh freshTok) ∧
    (get_pending_verification st.tokens uid = none → storeOk = false →
        (verify_wallet_cmd st now uid freshTok uuid storeOk).1 = .storeFailed) := by
  have hmain := verify_wallet_cmd_unverified st now uid freshTok uuid storeOk hnv
  refine ⟨?_, ?_, ?_, ?_⟩
  · intro pt hpt hjwt
    rw [hmain]
    simp [hpt, hjwt]
  · intro pt hpt hjwt hs
    rw [hmain]
    simp [hpt, hjwt, verify_wallet_fresh, hs]
  · intro hpt hs
    rw [hmain]
    simp [hpt, verify_wallet_fresh, hs]
  · intro hpt hs
    rw [hmain]
    simp [hpt, verify_wallet_fresh, hs]

/-- Counterexample to claim C6 as stated: account `A` holds the Pending,
unexpired token `pendA` (its JWT decodes at time 0), yet because `A` is
already wallet-verified the entry point answers "already verified" — it
neither returns the pending token value nor issues a fresh one. -/
theorem claim6_counterexample :
    get_pending_verification stVerifiedPending.tokens "A" = some pendA ∧
    verify_jwt_token 0 pendA = true ∧
    verify_wallet_cmd stVerifiedPending 0 "A" "freshTok" "u" true =
      (.alreadyVerified, stVerifiedPending) ∧
    (verify_wallet_cmd stVerifiedPending 0 "A" "freshTok" "u" true).1 ≠
      .reused pendA.token := by
  refine ⟨by decide, by decide, by decide, by decide⟩

/-- Witness for the amended claim C6: the unverified account with a Pending,
unexpired token gets exactly that token back. -/
theorem claim6_witness :
    verify_wallet_cmd stUnverifiedPending 0 "A" "freshTok" "u" true =
      (.reused "tokP", stUnverifiedPending) :=
  (claim6_reuse_policy stUnverifiedPending 0 "A" "freshTok" "u" true
    (by decide)).1 pendA (by decide) (by decide)

/-- Claim C7, amended (corrected): the JWT `exp` claim is exactly ten minutes
after the clock reading taken inside `generate_jwt_token`, and the stored
row's `expires_at` is exactly ten minutes after the separate clock reading
taken inside `store_verification_token`; the two agree exactly when those two
readings coincide — the source reads `datetime.utcnow()` twice, so for every
issued token the agreement holds only up to the time elapsed between
generation and storage (see the counterexample). -/
theorem claim7_expiry_agreement (genNow storeNow : Int) (did duid uuid tok : String) :
    (generate_jwt_token genNow did duid uuid).exp = genNow + 600 ∧
    (store_verification_token storeNow tok
        (generate_jwt_token genNow did duid uuid)).expires_at = storeNow + 600 ∧
    ((store_verification_token storeNow tok
          (generate_jwt_token genNow did duid uuid)).expires_at =
        (store_verification_token storeNow tok
          (generate_jwt_token genNow did duid uuid)).jwt_exp ↔
      genNow = storeNow) := by
  refine ⟨rfl, rfl, ?_⟩
  simp [generate_jwt_token, store_verification_token]
  omega

/-- Counterexample to claim C7 as stated: generating at clock reading 0 and
storing at clock reading 1 — one second later — yields a token whose JWT says
it expires at 600 while its stored row says 601; the two do not agree. -/
theorem claim7_counterexample :
    (store_verification_token 1 "tok" (generate_jwt_token 0 "A" "A" "u")).jwt_exp = 600 ∧
    (store_verification_token 1 "tok" (generate_jwt_token 0 "A" "A" "u")).expires_at = 601 ∧
    (store_verification_token 1 "tok" (generate_jwt_token 0 "A" "A" "u")).expires_at ≠
      (store_verification_token 1 "tok" (generate_jwt_token 0 "A" "A" "u")).jwt_exp := by
  refine ⟨by decide, by decide, by decide⟩

/-- Every normally returned response of the submit pipeline's try-block body
carries status 200, 400 or 500, and its success flag is set exactly on
status 200. -/
theorem submit_inner_shape (f : Faults) (st : DbState) (ip : String)
    (body : Option ReqBody) (r : Response) (st2 : DbState)
    (h : submit_inner f st ip body = .ok (r, st2)) :
    (r.statusCode = 200 ∨ r.statusCode = 400 ∨ r.statusCode = 500) ∧
    (r.success = true ↔ r.statusCode = 200) := by
  rcases body with _ | b
  · simp [submit_inner] at h
  · unfold submit_inner at h
    dsimp only at h
    split at h
    · simp only [Except.ok.injEq, Prod.mk.injEq] at h
      obtain ⟨h1, h2⟩ := h
      subst h1
      decide
    · split at h
      · simp only [Except.ok.injEq, Prod.mk.injEq] at h
        obtain ⟨h1, h2⟩ := h
        subst h1
        decide
      · split at h
        · simp at h
        · split at h
          · simp only [Except.ok.injEq, Prod.mk.injEq] at h
            obtain ⟨h1, h2⟩ := h
            subst h1
            decide
          · split at h
            · simp only [Except.ok.injEq, Prod.mk.injEq] at h
              obtain ⟨h1, h2⟩ := h
              subst h1
              decide
            · split at h
              · simp only [Except.ok.injEq, Prod.mk.injEq] at h
                obtain ⟨h1, h2⟩ := h
                subst h1
                decide
              · simp only [Except.ok.injEq, Prod.mk.injEq] at h
                obtain ⟨h1, h2⟩ := h
                subst h1
                decide

/-- Claim C8 (confirmed): every submit request receives a structured response
whose status is 200, 400, 429 or 500 and whose success flag is set exactly on
status 200; a rate-limited request gets 429 with no state change; a request
missing the signature field gets the 400 missing-data response with no state
mutation; and a request whose body fails to parse — an exception inside the
try block — is caught and mapped to the generic 500 response, never escaping
the handler. -/
theorem claim8_submit_envelope (f : Faults) (st : DbState) (rl : List Int)
    (now : Int) (ip : String) (body : Option ReqBody) :
    (((handle_verification_submit f st rl now ip body).1.statusCode = 200 ∨
      (handle_verification_submit f st rl now ip body).1.statusCode = 400 ∨
      (handle_verification_submit f st rl now ip body).1.statusCode = 429 ∨
      (handle_verification_submit f st rl now ip body).1.statusCode = 500) ∧
     ((handle_verification_submit f st rl now ip body).1.success = true ↔
      (handle_verification_submit f st rl now ip body).1.statusCode = 200)) ∧
    ((check_rate_limit rl now).1 = false →
      (handle_verification_submit f st rl now ip body).1.statusCode = 429 ∧
      (handle_verification_submit f st rl now ip body).2.1 = st) ∧
    (∀ b : ReqBody, body = some b → (check_rate_limit rl now).1 = true →
      truthyStr b.token = true → truthyStr b.walletAddress = true →
      truthyList b.signature = false →
      (handle_verification_submit f st rl now ip body).1 =
        { statusCode := 400, success := false, error := some .missingData } ∧
      (handle_verification_submit f st rl now ip body).2.1 = st) ∧
    ((check_rate_limit rl now).1 = true → body = none →
      (handle_verification_submit f st rl now ip body).1 =
        { statusCode := 500, success := false, error := some .internalError }) := by
  refine ⟨?_, ?_, ?_, ?_⟩
  · unfold handle_verification_submit
    by_cases hg : (check_rate_limit rl now).1 = true
    · simp only [hg, Bool.not_true, Bool.false_eq_true, if_false]
      cases hs : submit_inner f st ip body with
      | ok p =>
        obtain ⟨r, st2⟩ := p
        have hshape := submit_inner_shape f st ip body r st2 hs
        simp only
        refine ⟨?_, hshape.2⟩
        rcases hshape.1 with h1 | h1 | h1
        · exact Or.inl h1
        · exact Or.inr (Or.inl h1)
        · exact Or.inr (Or.inr (Or.inr h1))
      | error e =>
        simp only
        exact ⟨Or.inr (Or.inr (Or.inr (by trivial))), by decide⟩
    · have hgf : (check_rate_limit rl now).1 = false := by simpa using hg
      simp only [hgf, Bool.not_false, if_true]
      exact ⟨Or.inr (Or.inr (Or.inl (by trivial))), by decide⟩
  · intro hg
    unfold handle_verification_submit
    simp only [hg, Bool.not_false, if_true]
    exact ⟨by trivial, by trivial⟩
  · intro b hb hg ht hw hs
    subst hb
    unfold handle_verification_submit submit_inner
    simp only [hg, Bool.not_true, Bool.false_eq_true, if_false]
    simp [ht, hw, hs]
  · intro hg hb
    subst hb
    unfold handle_verification_submit
    simp [hg, submit_inner]

/-- Witness for claim C8 at concrete inputs: a fresh IP submitting a body
whose signature field is absent receives the 400 missing-data response and
the state is untouched. -/
theorem claim8_witness :
    (handle_verification_submit noFaults stExp [] 0 "ip"
        (some { token := some "tokE", walletAddress := some "w", signature := none })).1 =
      { statusCode := 400, success := false, error := some .missingData } ∧
    (handle_verification_submit noFaults stExp [] 0 "ip"
        (some { token := some "tokE", walletAddress := some "w", signature := none })).2.1 =
      stExp :=
  (claim8_submit_envelope noFaults stExp [] 0 "ip"
      (some { token := some "tokE", walletAddress := some "w", signature := none })).2.2.1
    { token := some "tokE", walletAddress := some "w", signature := none }
    rfl (by decide) (by decide) (by decide) (by decide)

/-- Claim C10 (confirmed): `handle_wallet_verification` passes a single
dictionary argument to the three-parameter method
`verify_wallet_signature(wallet_address, signature, token)`, so with the cog
loaded the call raises `TypeError` before the method body runs and every
request is answered 400 with the invalid-request error; without the cog the
answer is 500; a body that fails to parse is answered 400; and no request
through this endpoint ever yields a successful verification. -/
theorem claim10_confirm_never_succeeds (cogLoaded : Bool) (body : Option PyObj) :
    (handle_wallet_verification cogLoaded body).ok = false ∧
    (body = none →
      handle_wallet_verification cogLoaded body = { statusCode := 400, ok := false }) ∧
    (∀ d : PyObj, body = some d → cogLoaded = true →
      handle_wallet_verification cogLoaded body = { statusCode := 400, ok := false }) ∧
    (∀ d : PyObj, body = some d → cogLoaded = false →
      handle_wallet_verification cogLoaded body = { statusCode := 500, ok := false }) ∧
    (∀ args : List PyObj, args.length = 1 → call_verify_wallet_signature args = none) := by
  have harity : ∀ args : List PyObj, args.length = 1 →
      call_verify_wallet_signature args = none := by
    intro args hlen
    match args, hlen with
    | [a], _ => rfl
  refine ⟨?_, ?_, ?_, ?_, harity⟩
  · rcases body with _ | d
    · rfl
    · rcases cogLoaded with _ | _
      · rfl
      · unfold handle_wallet_verification
        simp [harity [d] rfl]
  · intro hb
    subst hb
    rfl
  · intro d hb hc
    subst hb
    subst hc
    unfold handle_wallet_verification
    simp [harity [d] rfl]
  · intro d hb hc
    subst hb
    subst hc
    rfl

/-- Witness for claim C10: with the cog loaded, a parsed dictionary body is
answered 400 invalid-request, never success. -/
theorem claim10_witness :
    handle_wallet_verification true (some .dict) = { statusCode := 400, ok := false } :=
  (claim10_confirm_never_succeeds true (some .dict)).2.2.1 .dict rfl rfl
